import Mathlib

/-!
Shallow embedding of the generation-update engine of a Conway's-Game-of-Life
variant (src/game_logic.py, src/cuda_kernels.py, src/gui.py, src/utils.py).

Modelling conventions:
- Python floats for probabilities and random draws are modelled as rationals.
- A grid is a list of rows; the CPU path stores Cell records, the CUDA path
  stores plain booleans (grid[y][x]).
- The Python random stream is modelled by a per-cell draw function: each cell
  consumes at most one draw per generation, so any realizable stream induces
  such a per-cell assignment.
- Uncaught Python exceptions (IndexError in load_state) are modelled as none.
-/

namespace Game

/-- Constants from utils.py. -/
def BASE_REVIVAL_PROB : ℚ := 2 / 100

/-- Maximum revival probability constant from utils.py. -/
def MAX_REVIVAL_PROB : ℚ := 10 / 100

/-- Death probability constant from utils.py. -/
def DEATH_PROB : ℚ := 2 / 100

/-- Cell record from gui.py: coordinates, activity and the two auxiliary flags.
The Python constructor Cell(x, y) defaults the three booleans to False. -/
structure Cell where
  x : Int
  y : Int
  is_active : Bool := false
  is_contagious : Bool := false
  is_defensive : Bool := false
deriving DecidableEq, Repr

/-- List map that also passes the element index, starting at a given index. -/
def mapFrom (f : Nat → α → β) : Nat → List α → List β
  | _, [] => []
  | i, a :: as => f i a :: mapFrom f (i + 1) as

/-- Default cell used to totalize out-of-range accesses (in-range accesses,
the only ones the Python code performs on well-formed grids, never see it). -/
def defaultCell : Cell := { x := 0, y := 0 }

/-- Cell access grid[r][c]. -/
def cellAt (grid : List (List Cell)) (r c : Nat) : Cell :=
  (grid.getD r []).getD c defaultCell

/-- Activity of grid[r][c]. -/
def activeAt (grid : List (List Cell)) (r c : Nat) : Bool :=
  (cellAt grid r c).is_active

/-- Python integer modulo for a nonnegative modulus: Int.emod agrees with
Python % on a positive modulus (result in [0, n)). -/
def wrap (i : Int) (n : Nat) : Nat :=
  (i % (n : Int)).toNat

/-- The eight Moore-neighborhood offsets (dr, dc) with (dr, dc) ≠ (0, 0),
in the iteration order of the Python comprehension. -/
def neighborOffsets : List (Int × Int) :=
  [(-1, -1), (-1, 0), (-1, 1), (0, -1), (0, 1), (1, -1), (1, 0), (1, 1)]

/-- GameLogic.count_neighbors: counts active cells among the eight wrapped
Moore neighbors, row wrapped modulo len(grid), column modulo len(grid[0]). -/
def count_neighbors (grid : List (List Cell)) (row col : Nat) : Nat :=
  neighborOffsets.countP (fun d =>
    activeAt grid (wrap ((row : Int) + d.1) grid.length)
      (wrap ((col : Int) + d.2) (grid.headD []).length))

/-- Per-cell transition of GameLogic.update_row, with the death probability
(the DEATH_PROB global in the source) passed explicitly. The draw argument is
the value rd.random() returns at whichever branch consumes it; the nested
redundant branch of the source is kept as written. -/
def next_state (death_prob : ℚ) (is_active : Bool) (live_neighbors : Nat)
    (adjusted_revival_prob draw : ℚ) : Bool :=
  if is_active then
    if ¬(live_neighbors = 2 ∨ live_neighbors = 3) then
      if 3 < live_neighbors ∧ draw < death_prob then false
      else false
    else true
  else
    if live_neighbors = 3 then true
    else if (live_neighbors = 2 ∨ live_neighbors = 4) ∧ draw < adjusted_revival_prob then true
    else false

/-- Number of active cells in the whole grid (the generator expression in
GameLogic.update). -/
def activeCount (grid : List (List Cell)) : Nat :=
  (grid.map (fun row => row.countP (fun c => c.is_active))).sum

/-- Population density computed by GameLogic.update: active / total if
total > 0 else 0. -/
def density (grid : List (List Cell)) : ℚ :=
  let total := grid.length * (grid.headD []).length
  if 0 < total then (activeCount grid : ℚ) / (total : ℚ) else 0

/-- The density-adjusted revival probability of GameLogic.update, computed
once per generation from the pre-update grid. -/
def adjusted_revival_prob (grid : List (List Cell)) : ℚ :=
  BASE_REVIVAL_PROB + (1 - density grid) * (MAX_REVIVAL_PROB - BASE_REVIVAL_PROB)

/-- One output cell of a generation: GameLogic.update allocates Cell(x, y)
(flags default to False) and update_row writes only is_active. -/
def updateCell (c : Cell) (live : Nat) (adjusted draw : ℚ) : Cell :=
  { x := c.x, y := c.y,
    is_active := next_state DEATH_PROB c.is_active live adjusted draw }

/-- GameLogic.update: computes the density-adjusted revival probability once,
then rebuilds every cell from its neighbor count and one fresh draw. The
row-parallel workers write disjoint rows of the fresh grid, so the result is
this per-cell map. -/
def update (grid : List (List Cell)) (draws : Nat → Nat → ℚ) : List (List Cell) :=
  let adjusted := adjusted_revival_prob grid
  mapFrom (fun r row => mapFrom (fun c cell =>
    updateCell cell (count_neighbors grid r c) adjusted (draws r c)) 0 row) 0 grid

/-- GameLogic.get_current_state: the activity matrix of the grid. -/
def get_current_state (grid : List (List Cell)) : List (List Bool) :=
  grid.map (fun row => row.map (fun c => c.is_active))

/-- GameLogic.save_state: pickles the activity matrix (the same expression as
get_current_state). -/
def save_state (grid : List (List Cell)) : List (List Bool) :=
  grid.map (fun row => row.map (fun c => c.is_active))

/-- Inner loop of GameLogic.load_state for one row: assigns state values into
the grid row position by position; a state row longer than the grid row hits
an out-of-range index (uncaught IndexError, modelled as none); grid cells
beyond the state row are left untouched. -/
def load_row : List Cell → List Bool → Option (List Cell)
  | row, [] => some row
  | [], _ :: _ => none
  | c :: cs, b :: bs =>
    (load_row cs bs).map (fun rest => { c with is_active := b } :: rest)

/-- GameLogic.load_state on an already-unpickled state: iterates the state
rows, merging each into the corresponding grid row; a state with more rows
than the grid hits an out-of-range index (uncaught IndexError, none). No
shape check is performed. -/
def load_state : List (List Cell) → List (List Bool) → Option (List (List Cell))
  | grid, [] => some grid
  | [], _ :: _ => none
  | grow :: grest, srow :: srest =>
    match load_row grow srow with
    | none => none
    | some grow2 => (load_state grest srest).map (fun rest => grow2 :: rest)

/-! CUDA path (src/cuda_kernels.py): the grid is a plain boolean matrix
indexed grid[y][x]; one logical thread per cell. -/

/-- Boolean-grid access grid[ny][nx] (numpy grid[ny, nx]). -/
def cuda_cell (grid : List (List Bool)) (ny nx : Nat) : Bool :=
  (grid.getD ny []).getD nx false

/-- count_neighbors_kernel for the thread at (x, y): counts active cells over
the eight offsets, skipping any neighbor coordinate outside
[0, width) × [0, height) (bounded addressing, no wraparound). -/
def count_neighbors_kernel (grid : List (List Bool)) (width height : Nat)
    (x y : Nat) : Nat :=
  neighborOffsets.countP (fun d =>
    let nx := (x : Int) + d.1
    let ny := (y : Int) + d.2
    if 0 ≤ nx ∧ nx < (width : Int) ∧ 0 ≤ ny ∧ ny < (height : Int) then
      cuda_cell grid ny.toNat nx.toNat
    else false)

/-- Per-cell branch structure of update_grid_kernel, with rnd the value the
thread drew from its xoroshiro state. The revival gate of the source uses
base_revival_prob + (1 - live_neighbors / 8.0) * (max_revival_prob -
base_revival_prob). -/
def update_grid_kernel_cell (alive : Bool) (live_neighbors : Nat)
    (death_prob base_revival_prob max_revival_prob rnd : ℚ) : Bool :=
  if alive then
    if ¬(live_neighbors = 2 ∨ live_neighbors = 3) then
      if 3 < live_neighbors ∧ rnd < death_prob then false
      else false
    else true
  else
    if live_neighbors = 3 then true
    else if (live_neighbors = 2 ∨ live_neighbors = 4) ∧
        rnd < base_revival_prob +
          (1 - (live_neighbors : ℚ) / 8) * (max_revival_prob - base_revival_prob) then true
    else false

/-- The fixed seed run_cuda_kernels passes to create_xoroshiro128p_states on
every call. -/
def SEED : Nat := 42

/-- run_cuda_kernels: one call recreates the per-thread RNG states from SEED,
runs the neighbor-count kernel, then the update kernel. The xoroshiro
generator is abstracted as prng (seed, x, y) giving the first value the
freshly seeded state of thread (x, y) yields; since the states are recreated
inside every call, each call uses prng SEED x y. -/
def run_cuda_kernels (prng : Nat → Nat → Nat → ℚ) (grid : List (List Bool))
    (death_prob base_revival_prob max_revival_prob : ℚ) : List (List Bool) :=
  let width := (grid.headD []).length
  let height := grid.length
  mapFrom (fun y row => mapFrom (fun x _ =>
    update_grid_kernel_cell (cuda_cell grid y x)
      (count_neighbors_kernel grid width height x y)
      death_prob base_revival_prob max_revival_prob (prng SEED x y)) 0 row) 0 grid

/-- The matrix of random values one call of run_cuda_kernels consumes: the
entry for thread (x, y) is the draw from the state freshly created with SEED
inside that call. -/
def run_cuda_draws (prng : Nat → Nat → Nat → ℚ) (grid : List (List Bool)) :
    List (List ℚ) :=
  mapFrom (fun y row => mapFrom (fun x _ => prng SEED x y) 0 row) 0 grid

/-- Modelled from the spec: the active-cell fraction of a boolean grid, used
to express the density-adjusted revival probability the spec prescribes for
the accelerator path (cuda_kernels.py itself never computes a density). -/
def boolDensity (grid : List (List Bool)) : ℚ :=
  let total := grid.length * (grid.headD []).length
  if 0 < total then ((grid.map (fun row => row.countP id)).sum : ℚ) / (total : ℚ) else 0

/-- Modelled from the spec: the density-adjusted revival probability
baseRevivalProb + (1 - density) * (maxRevivalProb - baseRevivalProb) over a
boolean grid. -/
def boolDensityAdjustedProb (grid : List (List Bool)) : ℚ :=
  BASE_REVIVAL_PROB + (1 - boolDensity grid) * (MAX_REVIVAL_PROB - BASE_REVIVAL_PROB)

/-- Modelled from the spec: toroidal neighbor count over a boolean grid, the
behavior the spec attributes to the CUDA kernel (both indices wrapped via
modulo against height and width). -/
def toroidalCountB (grid : List (List Bool)) (x y : Nat) : Nat :=
  neighborOffsets.countP (fun d =>
    cuda_cell grid (wrap ((y : Int) + d.2) grid.length)
      (wrap ((x : Int) + d.1) (grid.headD []).length))

/-! Basic lemmas about the embedding. -/

theorem mapFrom_length (f : Nat → α → β) (i : Nat) (l : List α) :
    (mapFrom f i l).length = l.length := by
  induction l generalizing i with
  | nil => rfl
  | cons a as ih => simp [mapFrom, ih]

theorem mapFrom_getElem? (f : Nat → α → β) (i n : Nat) (l : List α) :
    (mapFrom f i l)[n]? = (l[n]?).map (f (i + n)) := by
  induction l generalizing i n with
  | nil => simp [mapFrom]
  | cons a as ih =>
    cases n with
    | zero => simp [mapFrom]
    | succ m =>
      simp only [mapFrom, List.getElem?_cons_succ, ih]
      have h1 : i + 1 + m = i + (m + 1) := by omega
      rw [h1]

theorem mapFrom_getD (f : Nat → α → β) (n : Nat) (l : List α) (d : β) (da : α)
    (hn : n < l.length) :
    (mapFrom f 0 l).getD n d = f n (l.getD n da) := by
  rw [List.getD_eq_getD_get?, List.getD_eq_getD_get?, List.get?_eq_getElem?,
    List.get?_eq_getElem?, mapFrom_getElem?]
  rw [List.getElem?_eq_getElem hn]
  simp

/-- Reading a cell of the next generation: for an in-range position, the
output cell is the input cell rebuilt by updateCell from its neighbor count,
the per-generation adjusted revival probability and its own draw. -/
theorem cellAt_update (grid : List (List Cell)) (draws : Nat → Nat → ℚ)
    (r c : Nat) (hr : r < grid.length) (hc : c < (grid.getD r []).length) :
    cellAt (update grid draws) r c =
      updateCell (cellAt grid r c) (count_neighbors grid r c)
        (adjusted_revival_prob grid) (draws r c) := by
  unfold update cellAt
  rw [mapFrom_getD _ r _ _ [] hr, mapFrom_getD _ c _ _ defaultCell hc]

theorem countP_congr_list (l : List α) (p q : α → Bool) (h : ∀ a ∈ l, p a = q a) :
    l.countP p = l.countP q := by
  induction l with
  | nil => rfl
  | cons a as ih =>
    rw [List.countP_cons, List.countP_cons, h a (by simp),
      ih (fun b hb => h b (by simp [hb]))]

theorem toNat_emod_natCast (m : Int) (n : Nat) (hm : 0 ≤ m) :
    (m % (n : Int)).toNat = m.toNat % n := by
  obtain ⟨k, rfl⟩ := Int.eq_ofNat_of_zero_le hm
  rw [← Int.natCast_mod]
  exact Int.toNat_natCast _

/-- Modelled from the spec: a wrapped neighbor index written with
natural-number arithmetic only — shift the offset index into nonnegative
range by adding the modulus, then reduce modulo it. -/
def wrapSpec (i : Nat) (d : Int) (n : Nat) : Nat :=
  ((i : Int) + (n : Int) + d).toNat % n

/-- Modelled from the spec: the Moore-neighborhood count as §4.2 words it,
the eight cells at (row+dr, col+dc) with both indices wrapped modulo
height and width. -/
def countSpec (grid : List (List Cell)) (row col : Nat) : Nat :=
  neighborOffsets.countP (fun d =>
    activeAt grid (wrapSpec row d.1 grid.length)
      (wrapSpec col d.2 (grid.headD []).length))

/-- Python integer modulo coincides with the shifted natural-number wrap for
Moore offsets. -/
theorem wrap_eq_wrapSpec (i : Nat) (d : Int) (n : Nat) (hn : 0 < n)
    (hd : -1 ≤ d) :
    wrap ((i : Int) + d) n = wrapSpec i d n := by
  unfold wrap wrapSpec
  have h2 : (i : Int) + d + (n : Int) = (i : Int) + (n : Int) + d := by ring
  rw [← Int.add_emod_self (a := (i : Int) + d) (b := (n : Int)), h2]
  exact toNat_emod_natCast _ _ (by omega)

/-- Wrapping index 0 shifted by the offset -1 lands on the far edge n - 1. -/
theorem wrap_zero_neg_one (n : Nat) (hn : 0 < n) :
    wrap (((0 : Nat) : Int) + (-1)) n = n - 1 := by
  rw [wrap_eq_wrapSpec 0 (-1) n hn (by norm_num)]
  unfold wrapSpec
  have h1 : ((0 : Nat) : Int) + (n : Int) + (-1) = ((n - 1 : Nat) : Int) := by
    omega
  rw [h1, Int.toNat_natCast]
  exact Nat.mod_eq_of_lt (by omega)

/-- C3: for every well-formed non-empty grid and in-range (row, col), the CPU
neighbor counter returns a value in [0, 8] equal to the count over the eight
Moore offsets with both indices wrapped modulo grid height and width; in
particular the count for cell (0, 0) includes cell (height-1, width-1) as a
diagonal neighbor. -/
theorem C3_count_neighbors_toroidal (grid : List (List Cell)) (row col : Nat)
    (hne : grid ≠ []) (hw : 0 < (grid.headD []).length)
    (hrows : ∀ r ∈ grid, r.length = (grid.headD []).length)
    (hr : row < grid.length) (hc : col < (grid.headD []).length) :
    count_neighbors grid row col ≤ 8 ∧
    count_neighbors grid row col = countSpec grid row col ∧
    (activeAt grid (grid.length - 1) ((grid.headD []).length - 1) = true →
      0 < count_neighbors grid 0 0) := by
  have hh : 0 < grid.length := List.length_pos.mpr hne
  refine ⟨List.countP_le_length _, ?_, ?_⟩
  · unfold count_neighbors countSpec
    apply countP_congr_list
    intro d hd
    fin_cases hd <;>
      rw [wrap_eq_wrapSpec row _ _ hh (by norm_num),
        wrap_eq_wrapSpec col _ _ hw (by norm_num)]
  · intro hact
    apply List.countP_pos_iff.mpr
    refine ⟨(-1, -1), by simp [neighborOffsets], ?_⟩
    show activeAt grid (wrap (((0 : Nat) : Int) + (-1)) grid.length)
      (wrap (((0 : Nat) : Int) + (-1)) (grid.headD []).length) = true
    rw [wrap_zero_neg_one _ hh, wrap_zero_neg_one _ hw]
    exact hact

/-- Concrete 2 × 2 grid whose only active cell is the far corner (1, 1). -/
def cornerGrid : List (List Cell) :=
  [[{ x := 0, y := 0 }, { x := 10, y := 0 }],
   [{ x := 0, y := 10 }, { x := 10, y := 10, is_active := true }]]

/-- Witness for C3 on the concrete corner grid. -/
theorem C3_count_neighbors_toroidal_witness :
    count_neighbors cornerGrid 0 0 ≤ 8 ∧
    count_neighbors cornerGrid 0 0 = countSpec cornerGrid 0 0 ∧
    (activeAt cornerGrid (cornerGrid.length - 1)
        ((cornerGrid.headD []).length - 1) = true →
      0 < count_neighbors cornerGrid 0 0) :=
  C3_count_neighbors_toroidal cornerGrid 0 0 (by decide) (by decide)
    (by decide) (by decide) (by decide)

/-- C5: an active cell whose live-neighbor count is not 2 and not 3 becomes
inactive unconditionally — the outcome is the same for every death
probability and every random draw, in both the CPU update rule and the
accelerator update rule (both arms of the death_prob-gated branch set the
cell inactive). -/
theorem C5_nonsurviving_active_dies (live : Nat)
    (death adjusted draw base maxp draw2 : ℚ)
    (h : ¬(live = 2 ∨ live = 3)) :
    next_state death true live adjusted draw = false ∧
    update_grid_kernel_cell true live death base maxp draw2 = false := by
  constructor
  · unfold next_state
    simp [h]
  · unfold update_grid_kernel_cell
    simp [h]

/-- Witness for C5 at live-neighbor count 5. -/
theorem C5_nonsurviving_active_dies_witness :
    next_state DEATH_PROB true 5 (1 / 10) 0 = false ∧
    update_grid_kernel_cell true 5 DEATH_PROB BASE_REVIVAL_PROB
      MAX_REVIVAL_PROB 0 = false :=
  C5_nonsurviving_active_dies 5 DEATH_PROB (1 / 10) 0 BASE_REVIVAL_PROB
    MAX_REVIVAL_PROB 0 (by decide)

/-- C6: an inactive cell with exactly 3 live neighbors becomes active for
every probability parameter and every random draw, in both the CPU update
rule and the accelerator update rule. -/
theorem C6_birth_on_three (death adjusted draw base maxp draw2 : ℚ) :
    next_state death false 3 adjusted draw = true ∧
    update_grid_kernel_cell false 3 death base maxp draw2 = true := by
  constructor <;> rfl

/-- C10: after a CPU generation update, every in-range cell of the result
has is_contagious = false and is_defensive = false (flags of the previous
grid are silently dropped), while keeping the x and y coordinates of the
corresponding input cell. -/
theorem C10_update_clears_flags (grid : List (List Cell))
    (draws : Nat → Nat → ℚ) (r c : Nat)
    (hr : r < grid.length) (hc : c < (grid.getD r []).length) :
    (cellAt (update grid draws) r c).is_contagious = false ∧
    (cellAt (update grid draws) r c).is_defensive = false ∧
    (cellAt (update grid draws) r c).x = (cellAt grid r c).x ∧
    (cellAt (update grid draws) r c).y = (cellAt grid r c).y := by
  rw [cellAt_update grid draws r c hr hc]
  exact ⟨rfl, rfl, rfl, rfl⟩

/-- Witness for C10 on the concrete corner grid. -/
theorem C10_update_clears_flags_witness :
    (cellAt (update cornerGrid (fun _ _ => 0)) 0 0).is_contagious = false ∧
    (cellAt (update cornerGrid (fun _ _ => 0)) 0 0).is_defensive = false ∧
    (cellAt (update cornerGrid (fun _ _ => 0)) 0 0).x = (cellAt cornerGrid 0 0).x ∧
    (cellAt (update cornerGrid (fun _ _ => 0)) 0 0).y = (cellAt cornerGrid 0 0).y :=
  C10_update_clears_flags cornerGrid (fun _ _ => 0) 0 0 (by decide) (by decide)

/-- Rebuilding every cell reproduces the grid when every per-cell update is
the identity on the stored record. -/
theorem update_eq_self_of_cells (g : List (List Cell)) (draws : Nat → Nat → ℚ)
    (h : ∀ r c, r < g.length → c < (g.getD r []).length →
      updateCell (cellAt g r c) (count_neighbors g r c)
        (adjusted_revival_prob g) (draws r c) = cellAt g r c) :
    update g draws = g := by
  apply List.ext_getElem?_iff.mpr
  intro r
  unfold update
  rw [mapFrom_getElem?]
  cases hr : g[r]? with
  | none => rfl
  | some row =>
    simp only [Option.map_some', Nat.zero_add]
    congr 1
    apply List.ext_getElem?_iff.mpr
    intro c
    rw [mapFrom_getElem?]
    cases hc : row[c]? with
    | none => rfl
    | some cell =>
      simp only [Option.map_some', Nat.zero_add]
      congr 1
      obtain ⟨hrl, hrg⟩ := List.getElem?_eq_some_iff.mp hr
      obtain ⟨hcl, hcr⟩ := List.getElem?_eq_some_iff.mp hc
      have hgd : g.getD r [] = row := by
        rw [List.getD_eq_getElem _ _ hrl, hrg]
      have hcell : cellAt g r c = cell := by
        unfold cellAt
        rw [hgd, List.getD_eq_getElem _ _ hcl, hcr]
      have h2 := h r c hrl (by rw [hgd]; exact hcl)
      rw [hcell] at h2
      exact h2

/-- The 4 × 4 grid seeded with the block pattern: cells (0,0), (0,1), (1,0),
(1,1) active; coordinates x = 10·col, y = 10·row as in _initialize_grid with
CELL_SIZE = 10. -/
def blockGrid4 : List (List Cell) :=
  [[{ x := 0, y := 0, is_active := true }, { x := 10, y := 0, is_active := true },
    { x := 20, y := 0 }, { x := 30, y := 0 }],
   [{ x := 0, y := 10, is_active := true }, { x := 10, y := 10, is_active := true },
    { x := 20, y := 10 }, { x := 30, y := 10 }],
   [{ x := 0, y := 20 }, { x := 10, y := 20 }, { x := 20, y := 20 }, { x := 30, y := 20 }],
   [{ x := 0, y := 30 }, { x := 10, y := 30 }, { x := 20, y := 30 }, { x := 30, y := 30 }]]

/-- C4 fails as stated: with all raw draws equal to 0, one generation changes
the block grid — the dead cell (0, 2) has exactly two live neighbors, its
stochastic revival branch fires, and it becomes active. -/
theorem C4_block_still_life_counterexample :
    activeAt blockGrid4 0 2 = false ∧
    activeAt (update blockGrid4 (fun _ _ => 0)) 0 2 = true ∧
    update blockGrid4 (fun _ _ => 0) ≠ blockGrid4 := by
  have hadj : adjusted_revival_prob blockGrid4 = 2 / 25 := by
    unfold adjusted_revival_prob density activeCount BASE_REVIVAL_PROB MAX_REVIVAL_PROB
    norm_num [blockGrid4]
  have h1 : activeAt (update blockGrid4 (fun _ _ => 0)) 0 2 = true := by
    unfold activeAt
    rw [cellAt_update blockGrid4 _ 0 2 (by decide) (by decide)]
    have hcnt : count_neighbors blockGrid4 0 2 = 2 := by decide
    have hcell : cellAt blockGrid4 0 2 = { x := 20, y := 0 } := by decide
    rw [hcnt, hcell, hadj]
    show next_state DEATH_PROB false 2 (2 / 25) 0 = true
    norm_num [next_state]
  refine ⟨by decide, h1, ?_⟩
  intro heq
  rw [heq] at h1
  exact absurd h1 (by decide)

/-- C4 amended: one generation of the 4 × 4 block grid keeps the four block
cells active for every draw sequence (deterministic survival on 3 neighbors),
and the grid is exactly unchanged whenever every draw fails the revival gate;
the stochastic branch is engaged for dead cells with two live neighbors, so
the unchanged outcome is not draw-independent. -/
theorem C4_block_update_amended (draws : Nat → Nat → ℚ)
    (hfail : ∀ r c : Nat, ¬(draws r c < adjusted_revival_prob blockGrid4)) :
    update blockGrid4 draws = blockGrid4 ∧
    ∀ draws2 : Nat → Nat → ℚ,
      activeAt (update blockGrid4 draws2) 0 0 = true ∧
      activeAt (update blockGrid4 draws2) 0 1 = true ∧
      activeAt (update blockGrid4 draws2) 1 0 = true ∧
      activeAt (update blockGrid4 draws2) 1 1 = true := by
  constructor
  · have ecell : ∀ r, r < 4 → ∀ c, c < 4 → cellAt blockGrid4 r c =
        { x := 10 * (c : Int), y := 10 * (r : Int),
          is_active := decide (r ≤ 1 ∧ c ≤ 1) } := by decide
    have hcnt : ∀ r, r < 4 → ∀ c, c < 4 → count_neighbors blockGrid4 r c =
        (if r ≤ 1 then (if c ≤ 1 then 3 else 2) else (if c ≤ 1 then 2 else 1)) := by
      decide
    apply update_eq_self_of_cells
    intro r c hr hc
    have hr4 : r < 4 := by simpa [blockGrid4] using hr
    interval_cases r <;> (have hc4 : c < 4 := by simpa [blockGrid4] using hc) <;>
      interval_cases c <;>
      rw [ecell _ (by norm_num) _ (by norm_num), hcnt _ (by norm_num) _ (by norm_num)] <;>
      simp [updateCell, next_state, DEATH_PROB, hfail]
  · intro draws2
    refine ⟨?_, ?_, ?_, ?_⟩ <;>
      · unfold activeAt
        rw [cellAt_update blockGrid4 _ _ _ (by decide) (by decide)]
        rfl

/-- Witness for C4 amended: draws all equal to 1 fail the revival gate, so
the block grid is a fixed point of the update there. -/
theorem C4_block_update_amended_witness :
    update blockGrid4 (fun _ _ => 1) = blockGrid4 :=
  (C4_block_update_amended (fun _ _ => 1) (by
    intro r c
    unfold adjusted_revival_prob density activeCount BASE_REVIVAL_PROB MAX_REVIVAL_PROB
    norm_num [blockGrid4])).1

/-- C2 fails as stated: on a 3 × 3 grid whose only active cell is the far
corner (2, 2), the CUDA neighbor-count kernel reports 0 neighbors for cell
(0, 0), while the wrapped (toroidal) count the claim describes is 1 — the
kernel does not wrap indices modulo the grid dimensions. -/
theorem C2_cuda_toroidal_counterexample :
    count_neighbors_kernel [[false, false, false], [false, false, false],
      [false, false, true]] 3 3 0 0 = 0 ∧
    toroidalCountB [[false, false, false], [false, false, false],
      [false, false, true]] 0 0 = 1 := by decide

/-- C2 amended: the CUDA neighbor-count kernel uses bounded (non-toroidal)
addressing — out-of-range neighbor coordinates are skipped, the count is at
most 8, and for any grid with width, height ≥ 2 the count at (0, 0) counts
exactly the three in-bounds Moore neighbors (rows/cols 0..1), so cell
(height-1, width-1) is never included. -/
theorem C2_cuda_bounded_amended (grid : List (List Bool)) (width height : Nat)
    (x y : Nat) (hw : 2 ≤ width) (hh : 2 ≤ height) :
    count_neighbors_kernel grid width height x y ≤ 8 ∧
    count_neighbors_kernel grid width height 0 0 =
      ((if cuda_cell grid 1 0 then 1 else 0) +
       (if cuda_cell grid 0 1 then 1 else 0) +
       (if cuda_cell grid 1 1 then 1 else 0)) := by
  constructor
  · exact List.countP_le_length _
  · have hw0 : (0 : Int) < (width : Int) := by
      exact_mod_cast Nat.lt_of_lt_of_le (by norm_num) hw
    have hh0 : (0 : Int) < (height : Int) := by
      exact_mod_cast Nat.lt_of_lt_of_le (by norm_num) hh
    have hw1 : (1 : Int) < (width : Int) := by exact_mod_cast hw
    have hh1 : (1 : Int) < (height : Int) := by exact_mod_cast hh
    simp [count_neighbors_kernel, neighborOffsets, List.countP_cons, List.countP_nil,
      hw0, hh0, hw1, hh1]
    cases hA : cuda_cell grid 1 0 <;> cases hB : cuda_cell grid 0 1 <;>
      cases hC : cuda_cell grid 1 1 <;> simp [hA, hB, hC]

/-- Witness for C2 amended on a concrete 2 × 2 grid. -/
theorem C2_cuda_bounded_amended_witness :
    count_neighbors_kernel [[false, true], [true, true]] 2 2 0 0 ≤ 8 ∧
    count_neighbors_kernel [[false, true], [true, true]] 2 2 0 0 =
      ((if cuda_cell [[false, true], [true, true]] 1 0 then 1 else 0) +
       (if cuda_cell [[false, true], [true, true]] 0 1 then 1 else 0) +
       (if cuda_cell [[false, true], [true, true]] 1 1 then 1 else 0)) :=
  C2_cuda_bounded_amended [[false, true], [true, true]] 2 2 0 0
    (by decide) (by decide)

/-- Reading a cell of the accelerator result: for an in-range thread, the
output is the kernel transition applied to the cell, its bounded neighbor
count, and the thread's draw from the freshly seeded state. -/
theorem cuda_cell_run (prng : Nat → Nat → Nat → ℚ) (grid : List (List Bool))
    (death base maxp : ℚ) (y x : Nat)
    (hy : y < grid.length) (hx : x < (grid.getD y []).length) :
    cuda_cell (run_cuda_kernels prng grid death base maxp) y x =
      update_grid_kernel_cell (cuda_cell grid y x)
        (count_neighbors_kernel grid (grid.headD []).length grid.length x y)
        death base maxp (prng SEED x y) := by
  unfold run_cuda_kernels cuda_cell
  rw [mapFrom_getD _ y _ _ [] hy, mapFrom_getD _ x _ _ false hx]

/-- A 4 × 4 boolean grid at density 1/2 (two full active columns). -/
def halfGrid : List (List Bool) :=
  [[true, true, false, false], [true, true, false, false],
   [true, true, false, false], [true, true, false, false]]

/-- C1 fails as stated for the accelerator strategy: on the half-density grid,
the dead cell at (x, y) = (2, 0) has 2 live neighbors; the whole-grid density
gate is 0.02 + (1/2)·0.08 = 0.06, which the draw 0.07 fails, yet the CUDA
kernel revives the cell because its gate is the per-cell quantity
0.02 + (1 - 2/8)·0.08 = 0.08. -/
theorem C1_density_gate_counterexample :
    cuda_cell halfGrid 0 2 = false ∧
    count_neighbors_kernel halfGrid 4 4 2 0 = 2 ∧
    cuda_cell (run_cuda_kernels (fun _ _ _ => 7 / 100) halfGrid DEATH_PROB
      BASE_REVIVAL_PROB MAX_REVIVAL_PROB) 0 2 = true ∧
    ¬((7 : ℚ) / 100 < boolDensityAdjustedProb halfGrid) := by
  refine ⟨by decide, by decide, ?_, ?_⟩
  · rw [cuda_cell_run _ _ _ _ _ 0 2 (by decide) (by decide)]
    rw [show cuda_cell halfGrid 0 2 = false from by decide]
    rw [show count_neighbors_kernel halfGrid (halfGrid.headD []).length
      halfGrid.length 2 0 = 2 from by decide]
    unfold update_grid_kernel_cell DEATH_PROB BASE_REVIVAL_PROB MAX_REVIVAL_PROB
    norm_num
  · unfold boolDensityAdjustedProb boolDensity BASE_REVIVAL_PROB MAX_REVIVAL_PROB
    norm_num [halfGrid]

/-- C1 amended: the CPU strategy gates each inactive cell with 2 or 4 live
neighbors by the single per-generation probability adjusted_revival_prob
(baseRevivalProb + (1 - density) · (maxRevivalProb - baseRevivalProb) over
the pre-update grid); the accelerator strategy instead gates such a cell by
the per-cell quantity baseRevivalProb + (1 - liveNeighbors/8) ·
(maxRevivalProb - baseRevivalProb). -/
theorem C1_revival_gate_amended (grid : List (List Cell))
    (draws : Nat → Nat → ℚ) (r c : Nat)
    (hr : r < grid.length) (hc : c < (grid.getD r []).length)
    (hdead : (cellAt grid r c).is_active = false)
    (hlive : count_neighbors grid r c = 2 ∨ count_neighbors grid r c = 4)
    (alive : Bool) (live : Nat) (death base maxp rnd : ℚ)
    (hdead2 : alive = false) (hlive2 : live = 2 ∨ live = 4) :
    (activeAt (update grid draws) r c =
      decide (draws r c < adjusted_revival_prob grid)) ∧
    (update_grid_kernel_cell alive live death base maxp rnd =
      decide (rnd < base + (1 - (live : ℚ) / 8) * (maxp - base))) := by
  constructor
  · unfold activeAt
    rw [cellAt_update grid draws r c hr hc]
    show next_state DEATH_PROB (cellAt grid r c).is_active
      (count_neighbors grid r c) (adjusted_revival_prob grid) (draws r c) = _
    rw [hdead]
    have h3 : ¬(count_neighbors grid r c = 3) := by
      rcases hlive with h | h <;> omega
    by_cases h2 : draws r c < adjusted_revival_prob grid <;>
      simp [next_state, h3, hlive, h2]
  · subst hdead2
    have h3 : ¬(live = 3) := by rcases hlive2 with h | h <;> omega
    by_cases h2 : rnd < base + (1 - (live : ℚ) / 8) * (maxp - base) <;>
      simp [update_grid_kernel_cell, h3, hlive2, h2]

/-- Witness for C1 amended on the corner grid (CPU side, 4 live neighbors)
and on concrete kernel arguments (accelerator side). -/
theorem C1_revival_gate_amended_witness :
    (activeAt (update cornerGrid (fun _ _ => 0)) 0 0 =
      decide ((0 : ℚ) < adjusted_revival_prob cornerGrid)) ∧
    (update_grid_kernel_cell false 4 DEATH_PROB BASE_REVIVAL_PROB
        MAX_REVIVAL_PROB 0 =
      decide ((0 : ℚ) < BASE_REVIVAL_PROB +
        (1 - ((4 : Nat) : ℚ) / 8) * (MAX_REVIVAL_PROB - BASE_REVIVAL_PROB))) :=
  C1_revival_gate_amended cornerGrid (fun _ _ => 0) 0 0 (by decide) (by decide)
    (by decide) (Or.inr (by decide)) false 4 DEATH_PROB BASE_REVIVAL_PROB
    MAX_REVIVAL_PROB 0 rfl (Or.inr rfl)

theorem mapFrom_idx_only {α β γ : Type} (g : Nat → γ) :
    ∀ (j : Nat) (r1 : List α) (r2 : List β), r1.length = r2.length →
      mapFrom (fun x _ => g x) j r1 = mapFrom (fun x _ => g x) j r2 := by
  intro j r1
  induction r1 generalizing j with
  | nil =>
    intro r2 h
    cases r2 with
    | nil => rfl
    | cons b bs => simp at h
  | cons a as ih =>
    intro r2 h
    cases r2 with
    | nil => simp at h
    | cons b bs =>
      unfold mapFrom
      rw [ih (j + 1) bs (by simpa using h)]

theorem run_cuda_draws_shape_aux (prng : Nat → Nat → Nat → ℚ) :
    ∀ (j : Nat) (g1 g2 : List (List Bool)),
      g1.length = g2.length →
      (∀ i : Nat, (g1.getD i []).length = (g2.getD i []).length) →
      mapFrom (fun y row => mapFrom (fun x _ => prng SEED x y) 0 row) j g1 =
      mapFrom (fun y row => mapFrom (fun x _ => prng SEED x y) 0 row) j g2 := by
  intro j g1
  induction g1 generalizing j with
  | nil =>
    intro g2 h hrow
    cases g2 with
    | nil => rfl
    | cons t ts => simp at h
  | cons r rs ih =>
    intro g2 h hrow
    cases g2 with
    | nil => simp at h
    | cons t ts =>
      unfold mapFrom
      rw [mapFrom_idx_only (fun x => prng SEED x j) 0 r t (hrow 0)]
      rw [ih (j + 1) ts (by simpa using h) (fun i => hrow (i + 1))]

/-- C8 fails as stated: with a concrete generator abstraction and a concrete
2 × 2 grid, the draw matrix consumed by the second of two successive
accelerator calls is identical (not distinct) to the first call's, because
run_cuda_kernels recreates its RNG states from the fixed seed 42 inside
every call. -/
theorem C8_distinct_draws_counterexample :
    run_cuda_draws (fun s x y => ((s : ℚ) + 3 * x + 5 * y) / 100)
      (run_cuda_kernels (fun s x y => ((s : ℚ) + 3 * x + 5 * y) / 100)
        [[false, true], [true, false]] DEATH_PROB BASE_REVIVAL_PROB
        MAX_REVIVAL_PROB) =
    run_cuda_draws (fun s x y => ((s : ℚ) + 3 * x + 5 * y) / 100)
      [[false, true], [true, false]] ∧
    run_cuda_draws (fun s x y => ((s : ℚ) + 3 * x + 5 * y) / 100)
      [[false, true], [true, false]] ≠ [] := by
  constructor
  · rfl
  · intro h
    simp [run_cuda_draws, mapFrom] at h

/-- C8 amended: the accelerator path recreates and reseeds its per-thread RNG
states with the fixed seed 42 inside every call, so for every generator, grid
and parameters, two successive generation updates consume pointwise identical
draw matrices rather than distinct ones. -/
theorem C8_reseed_every_call_amended (prng : Nat → Nat → Nat → ℚ)
    (grid : List (List Bool)) (death base maxp : ℚ) :
    run_cuda_draws prng (run_cuda_kernels prng grid death base maxp) =
      run_cuda_draws prng grid := by
  unfold run_cuda_draws
  apply run_cuda_draws_shape_aux
  · unfold run_cuda_kernels
    exact mapFrom_length _ _ _
  · intro i
    by_cases hi : i < grid.length
    · unfold run_cuda_kernels
      rw [mapFrom_getD _ i _ _ [] hi]
      exact mapFrom_length _ _ _
    · have h1 : grid.length ≤ i := Nat.le_of_not_lt hi
      rw [List.getD_eq_default _ _
          (by unfold run_cuda_kernels; rw [mapFrom_length]; exact h1),
        List.getD_eq_default _ _ h1]

/-- Row-wise shape test: every state row must fit inside the corresponding
grid row for the positional assignments of load_state to stay in range. -/
def shapeFits : List (List Bool) → List (List Cell) → Bool
  | [], _ => true
  | _ :: _, [] => false
  | s :: ss, g :: gs => decide (s.length ≤ g.length) && shapeFits ss gs

theorem load_row_isSome : ∀ (srow : List Bool) (row : List Cell),
    srow.length ≤ row.length → (load_row row srow).isSome = true := by
  intro srow
  induction srow with
  | nil => intro row h; cases row <;> rfl
  | cons b bs ih =>
    intro row h
    cases row with
    | nil => simp at h
    | cons c cs =>
      have h2 := ih cs (by simpa using h)
      cases hlr : load_row cs bs with
      | none => rw [hlr] at h2; simp at h2
      | some m => simp [load_row, hlr]

theorem load_state_isSome : ∀ (state : List (List Bool)) (grid : List (List Cell)),
    shapeFits state grid = true → (load_state grid state).isSome = true := by
  intro state
  induction state with
  | nil => intro grid h; cases grid <;> rfl
  | cons s ss ih =>
    intro grid h
    cases grid with
    | nil => simp [shapeFits] at h
    | cons g gs =>
      simp only [shapeFits, Bool.and_eq_true, decide_eq_true_eq] at h
      have h1 := load_row_isSome s g h.1
      cases hlr : load_row g s with
      | none => rw [hlr] at h1; simp at h1
      | some m =>
        have h2 := ih gs h.2
        cases hls : load_state gs ss with
        | none => rw [hls] at h2; simp at h2
        | some ms => simp [load_state, hlr, hls]

theorem load_state_none_of_longer : ∀ (state : List (List Bool)) (grid : List (List Cell)),
    grid.length < state.length → load_state grid state = none := by
  intro state
  induction state with
  | nil => intro grid h; simp at h
  | cons s ss ih =>
    intro grid h
    cases grid with
    | nil => rfl
    | cons g gs =>
      cases hlr : load_row g s with
      | none => simp [load_state, hlr]
      | some m => simp [load_state, hlr, ih gs (by simpa using h)]

/-- C7 fails as stated: loading a 1 × 1 snapshot into a 2 × 2 grid raises no
ShapeMismatch — the operation succeeds and silently merges the single value
into the top-left cell; and a snapshot with more rows than the grid hits an
uncaught IndexError (modelled as none) instead of a reported error. -/
theorem C7_shape_mismatch_counterexample :
    load_state [[{ x := 0, y := 0 }, { x := 10, y := 0 }],
                [{ x := 0, y := 10 }, { x := 10, y := 10 }]] [[true]] =
      some [[{ x := 0, y := 0, is_active := true }, { x := 10, y := 0 }],
            [{ x := 0, y := 10 }, { x := 10, y := 10 }]] ∧
    ([[true]] : List (List Bool)).length ≠
      ([[{ x := 0, y := 0 }, { x := 10, y := 0 }],
        [{ x := 0, y := 10 }, { x := 10, y := 10 }]] : List (List Cell)).length ∧
    load_state [[{ x := 0, y := 0 }]] [[true], [true]] = none := by decide

/-- C7 amended: load_state performs no shape check — whenever every snapshot
row fits inside the corresponding grid row the load succeeds (silently
merging into the top-left region, even if the dimensions differ), and a
snapshot with more rows than the grid fails with an uncaught IndexError
rather than a reported ShapeMismatch. -/
theorem C7_no_shape_check_amended (grid : List (List Cell))
    (state : List (List Bool)) :
    (shapeFits state grid = true → (load_state grid state).isSome = true) ∧
    (grid.length < state.length → load_state grid state = none) :=
  ⟨load_state_isSome state grid, load_state_none_of_longer state grid⟩

/-- Witness for C7 amended: both implications discharged on concrete
grids. -/
theorem C7_no_shape_check_amended_witness :
    (load_state [[{ x := 0, y := 0 }, { x := 10, y := 0 }],
                 [{ x := 0, y := 10 }, { x := 10, y := 10 }]] [[true]]).isSome = true ∧
    load_state [[{ x := 0, y := 0 }]] [[true], [true]] = none :=
  ⟨(C7_no_shape_check_amended _ _).1 (by decide),
   (C7_no_shape_check_amended _ _).2 (by decide)⟩

/-- Row-wise equal dimensions of two cell grids. -/
def sameShape : List (List Cell) → List (List Cell) → Bool
  | [], [] => true
  | r1 :: rest1, r2 :: rest2 => decide (r1.length = r2.length) && sameShape rest1 rest2
  | _, _ => false

theorem load_row_save_row : ∀ (src tgt : List Cell), src.length = tgt.length →
    ∃ merged, load_row tgt (src.map (fun c => c.is_active)) = some merged ∧
      merged.map (fun c => c.is_active) = src.map (fun c => c.is_active) := by
  intro src
  induction src with
  | nil =>
    intro tgt h
    cases tgt with
    | nil => exact ⟨[], rfl, rfl⟩
    | cons b bs => simp at h
  | cons a as ih =>
    intro tgt h
    cases tgt with
    | nil => simp at h
    | cons b bs =>
      obtain ⟨m, hm, hact⟩ := ih bs (by simpa using h)
      refine ⟨{ b with is_active := a.is_active } :: m, ?_, ?_⟩
      · simp [load_row, hm]
      · simp [hact]

theorem load_state_save_state : ∀ (src tgt : List (List Cell)),
    sameShape src tgt = true →
    ∃ merged, load_state tgt (save_state src) = some merged ∧
      get_current_state merged = get_current_state src := by
  intro src
  induction src with
  | nil =>
    intro tgt h
    cases tgt with
    | nil => exact ⟨[], rfl, rfl⟩
    | cons t ts => simp [sameShape] at h
  | cons r rs ih =>
    intro tgt h
    cases tgt with
    | nil => simp [sameShape] at h
    | cons t ts =>
      simp only [sameShape, Bool.and_eq_true, decide_eq_true_eq] at h
      obtain ⟨m, hm, hact⟩ := load_row_save_row r t h.1
      obtain ⟨ms, hms, hacts⟩ := ih ts h.2
      refine ⟨m :: ms, ?_, ?_⟩
      · show load_state (t :: ts)
          ((r.map fun c => c.is_active) :: save_state rs) = some (m :: ms)
        simp [load_state, hm, hms]
      · simp only [get_current_state, List.map_cons] at hacts ⊢
        simp [hact, hacts]

/-- C9: saving a grid's state and loading it back into a grid of the same
dimensions yields a state equal to the original grid's snapshot. -/
theorem C9_save_load_roundtrip (src tgt : List (List Cell))
    (hshape : sameShape src tgt = true)
    (hne : src ≠ []) (hw : 0 < (src.headD []).length) :
    ∃ merged, load_state tgt (save_state src) = some merged ∧
      get_current_state merged = get_current_state src :=
  load_state_save_state src tgt hshape

/-- Witness for C9 on concrete 1 × 1 grids. -/
theorem C9_save_load_roundtrip_witness :
    ∃ merged, load_state [[{ x := 5, y := 5 }]]
        (save_state [[{ x := 0, y := 0, is_active := true }]]) = some merged ∧
      get_current_state merged =
        get_current_state [[{ x := 0, y := 0, is_active := true }]] :=
  C9_save_load_roundtrip [[{ x := 0, y := 0, is_active := true }]]
    [[{ x := 5, y := 5 }]] (by decide) (by decide) (by decide)

end Game
